import Mathlib

/-!
Formal model of the be-bantuin marketplace backend.

This file is a shallow embedding of the money-moving services of the
repository: the wallet ledger (WalletsService), the order state machine
(OrdersService), the payment settlement handler (PaymentsService) and the
admin payout / dispute operations (AdminService).

Modelling conventions:
* Database tables are lists of records inside a single state `St`; Prisma
  `findUnique` / `findFirst` become `List.find?`, `update where` becomes a
  guarded `List.map` (`listUpdate`) after a `find?` (Prisma throws `P2025`
  when the row is absent, modelled as `ApiError.prismaNotFound`).
* A Prisma interactive transaction is modelled by the `Except` monad: a
  thrown error aborts the whole operation and the caller keeps the original
  state, which is exactly the all-or-nothing commit semantics.
* Monetary values (Prisma `Decimal`) are rationals.
* `new Date()` timestamps are an explicit `now : Nat` parameter.
* NestJS exceptions are the constructors of `ApiError`, carrying the
  message string from the source.
-/

abbrev Money : Type := ℚ

/-- NestJS exception taxonomy as thrown by the services, plus the Prisma
record-not-found error (`P2025`) raised by `findUniqueOrThrow` / `update`. -/
inductive ApiError where
  | notFound (msg : String)
  | badRequest (msg : String)
  | forbidden (msg : String)
  | conflict (msg : String)
  | internal (msg : String)
  | prismaNotFound (model : String)
  deriving DecidableEq

/-- Prisma enum OrderStatus (src/prisma/migrations/20251214072321_fix_db). -/
inductive OrderStatus where
  | DRAFT | WAITING_PAYMENT | PAID_ESCROW | IN_PROGRESS | DELIVERED
  | REVISION | COMPLETED | CANCELLED | DISPUTED | RESOLVED
  deriving DecidableEq

/-- The string value Prisma stores and returns for each OrderStatus member
(the enum member name itself). -/
def OrderStatus.dbName : OrderStatus → String
  | .DRAFT => "DRAFT"
  | .WAITING_PAYMENT => "WAITING_PAYMENT"
  | .PAID_ESCROW => "PAID_ESCROW"
  | .IN_PROGRESS => "IN_PROGRESS"
  | .DELIVERED => "DELIVERED"
  | .REVISION => "REVISION"
  | .COMPLETED => "COMPLETED"
  | .CANCELLED => "CANCELLED"
  | .DISPUTED => "DISPUTED"
  | .RESOLVED => "RESOLVED"

/-- Prisma enum PaymentStatus. -/
inductive PaymentStatus where
  | PENDING | SETTLEMENT | EXPIRE | CANCELLED
  deriving DecidableEq

/-- Prisma enum PayoutStatus. -/
inductive PayoutStatus where
  | PENDING | APPROVED | REJECTED | COMPLETED
  deriving DecidableEq

/-- The string Prisma renders for a PayoutStatus (used in error messages). -/
def PayoutStatus.dbName : PayoutStatus → String
  | .PENDING => "PENDING"
  | .APPROVED => "APPROVED"
  | .REJECTED => "REJECTED"
  | .COMPLETED => "COMPLETED"

/-- Prisma enum WalletTransactionType. -/
inductive WalletTransactionType where
  | ESCROW_RELEASE | ESCROW_REFUND | PAYOUT_REQUEST
  | PAYOUT_REJECTED | DISPUTE_RELEASE | DISPUTE_REFUND
  deriving DecidableEq

/-- Prisma enum DisputeStatus. -/
inductive DisputeStatus where
  | OPEN | RESOLVED
  deriving DecidableEq

/-- Prisma enum DisputeResolution. -/
inductive DisputeResolution where
  | RELEASE_TO_SELLER | REFUND_TO_BUYER
  deriving DecidableEq

/-- Wallet row: one per user, single mutable balance. -/
structure Wallet where
  id : String
  userId : String
  balance : Money
  deriving DecidableEq

/-- WalletTransaction row: immutable ledger entry. -/
structure WalletTransaction where
  walletId : String
  type : WalletTransactionType
  amount : Money
  description : String
  orderId : Option String := none
  paymentId : Option String := none
  payoutRequestId : Option String := none
  balanceBefore : Money
  balanceAfter : Money
  deriving DecidableEq

/-- Service row (the fields the modelled operations read or write). -/
structure Service where
  id : String
  sellerId : String
  title : String
  price : Money
  deliveryTime : Nat
  revisions : Nat
  isActive : Bool
  status : String
  totalOrders : Nat
  deriving DecidableEq

/-- User row (the fields the modelled operations read or write). -/
structure User where
  id : String
  totalOrdersCompleted : Nat
  deriving DecidableEq

/-- Order row. -/
structure Order where
  id : String
  serviceId : String
  buyerId : String
  title : String
  price : Money
  deliveryTime : Nat
  maxRevisions : Nat
  revisionCount : Nat
  revisionNotes : List String
  requirements : String
  status : OrderStatus
  isPaid : Bool
  paidAt : Option Nat := none
  deliveredAt : Option Nat := none
  completedAt : Option Nat := none
  cancelledAt : Option Nat := none
  cancellationReason : Option String := none
  deliveryFiles : List String := []
  deliveryNote : Option String := none
  deriving DecidableEq

/-- Payment row: one-to-one with Order. -/
structure Payment where
  id : String
  orderId : String
  status : PaymentStatus
  transactionId : Option String := none
  paymentType : Option String := none
  deriving DecidableEq

/-- PayoutAccount row. -/
structure PayoutAccount where
  id : String
  userId : String
  bankName : String
  accountNumber : String
  deriving DecidableEq

/-- PayoutRequest row. -/
structure PayoutRequest where
  id : String
  userId : String
  walletId : String
  accountId : String
  amount : Money
  status : PayoutStatus
  processedAt : Option Nat := none
  adminNotes : Option String := none
  deriving DecidableEq

/-- Dispute row: one-to-one with Order. -/
structure Dispute where
  id : String
  orderId : String
  openedById : String
  status : DisputeStatus
  resolution : Option DisputeResolution := none
  adminNotes : Option String := none
  resolvedById : Option String := none
  resolvedAt : Option Nat := none
  deriving DecidableEq

/-- Notification row (the notification sink is append-only here). -/
structure Notification where
  userId : String
  content : String
  link : String
  ntype : String
  deriving DecidableEq

/-- The database state: one list per table. -/
structure St where
  wallets : List Wallet := []
  walletTransactions : List WalletTransaction := []
  orders : List Order := []
  services : List Service := []
  users : List User := []
  payments : List Payment := []
  payoutAccounts : List PayoutAccount := []
  payoutRequests : List PayoutRequest := []
  disputes : List Dispute := []
  notifications : List Notification := []
  deriving DecidableEq

/-- Prisma `update where p` applied to a table: rewrite every row matching
the (unique-key) predicate. -/
def listUpdate {α : Type} (p : α → Bool) (f : α → α) (l : List α) : List α :=
  l.map fun x => if p x then f x else x

namespace WalletsService

/-- The TransactionInput record of src/unnamed/part_003 (minus the `tx`
handle, which is the ambient state here). -/
structure TransactionInput where
  walletId : String
  type : WalletTransactionType
  amount : Money
  description : String
  orderId : Option String := none
  paymentId : Option String := none
  payoutRequestId : Option String := none
  deriving DecidableEq

/-- WalletsService.createTransaction (src/unnamed/part_003 lines 215-272):
reads the wallet, computes balanceAfter, fails when it would be negative,
otherwise writes the new balance and appends the ledger row in the same
atomic unit. All raised errors are rewrapped by the catch block into an
InternalServerErrorException whose message carries the cause. -/
def createTransaction (st : St) (input : TransactionInput) :
    Except ApiError (St × WalletTransaction) :=
  match st.wallets.find? (fun w => w.id == input.walletId) with
  | none => .error (.internal "Gagal memproses transaksi: No Wallet found")
  | some wallet =>
    let balanceBefore := wallet.balance
    let balanceAfter := balanceBefore + input.amount
    if balanceAfter < 0 then
      .error (.internal "Gagal memproses transaksi: Saldo tidak mencukupi")
    else
      let t : WalletTransaction :=
        { walletId := input.walletId
          type := input.type
          amount := input.amount
          description := input.description
          orderId := input.orderId
          paymentId := input.paymentId
          payoutRequestId := input.payoutRequestId
          balanceBefore := balanceBefore
          balanceAfter := balanceAfter }
      .ok ({ st with
              wallets := listUpdate (fun w => w.id == input.walletId)
                (fun w => { w with balance := balanceAfter }) st.wallets
              walletTransactions := st.walletTransactions ++ [t] }, t)

/-- The caller-chosen fields of one createTransaction call against a fixed
wallet (a TransactionInput without the wallet id). -/
structure LedgerRequest where
  type : WalletTransactionType
  amount : Money
  description : String
  orderId : Option String := none
  paymentId : Option String := none
  payoutRequestId : Option String := none
  deriving DecidableEq

/-- A sequence of ledger operations on one wallet: each request is applied
through createTransaction, and any failure aborts the run (the enclosing
operation rolls back). -/
def runLedger (st : St) (walletId : String) :
    List LedgerRequest → Except ApiError St
  | [] => .ok st
  | r :: rs =>
    match createTransaction st
        { walletId := walletId, type := r.type, amount := r.amount,
          description := r.description, orderId := r.orderId,
          paymentId := r.paymentId, payoutRequestId := r.payoutRequestId } with
    | .error e => .error e
    | .ok (st', _) => runLedger st' walletId rs

/-- A state holding exactly one wallet and its ledger log. -/
def mkLedgerSt (w : Wallet) (log : List WalletTransaction) : St :=
  { wallets := [w], walletTransactions := log }

end WalletsService

/-- The audit-chain predicate: starting from balance b, each entry records
balanceBefore equal to the running balance and balanceAfter equal to
balanceBefore + amount, ending at balance e. -/
def chainFrom : Money → List WalletTransaction → Money → Prop
  | b, [], e => b = e
  | b, t :: ts, e =>
    t.balanceBefore = b ∧ t.balanceAfter = b + t.amount ∧
      chainFrom t.balanceAfter ts e

/-- NotificationsService.create / createInTx: append one notification row
(the sink is modelled as never failing; per the error-handling design its
failures must not roll back the enclosing financial transaction). -/
def notifyCreate (st : St) (userId content link ntype : String) : St :=
  { st with notifications := st.notifications ++
      [{ userId := userId, content := content, link := link, ntype := ntype }] }

namespace WalletsService

/-- WalletsService.createWallet (src/unnamed/part_003 lines 39-46): insert
a wallet with balance 0; Prisma generates the row id, passed as newId. -/
def createWallet (st : St) (userId : String) (newId : String) : St × Wallet :=
  let w : Wallet := { id := newId, userId := userId, balance := 0 }
  ({ st with wallets := st.wallets ++ [w] }, w)

/-- WalletsService.getWalletByUserId (src/unnamed/part_003 lines 52-62):
find the wallet of the user, lazily creating it with balance 0 if absent. -/
def getWalletByUserId (st : St) (userId : String) (newId : String) :
    St × Wallet :=
  match st.wallets.find? (fun w => w.userId == userId) with
  | some w => (st, w)
  | none => createWallet st userId newId

/-- The CreatePayoutRequestDto. -/
structure CreatePayoutRequestDto where
  amount : Money
  payoutAccountId : String
  deriving DecidableEq

/-- WalletsService.createPayoutRequest (src/unnamed/part_003 lines
142-192): validates the 50000 minimum, then in one transaction checks the
balance, verifies bank-account ownership, creates a PENDING PayoutRequest
(fresh id newId) and debits the wallet through createTransaction. -/
def createPayoutRequest (st : St) (userId : String)
    (dto : CreatePayoutRequestDto) (newId : String) :
    Except ApiError (St × PayoutRequest) :=
  if dto.amount < 50000 then
    .error (.badRequest "Minimal penarikan adalah Rp 50.000")
  else
    match st.wallets.find? (fun w => w.userId == userId) with
    | none => .error (.prismaNotFound "Wallet")
    | some wallet =>
      if wallet.balance < dto.amount then
        .error (.badRequest "Saldo Anda tidak mencukupi")
      else
        match st.payoutAccounts.find? (fun a => a.id == dto.payoutAccountId) with
        | none => .error (.prismaNotFound "PayoutAccount")
        | some account =>
          if account.userId ≠ userId then
            .error (.forbidden "Rekening bank tidak valid")
          else
            let payoutRequest : PayoutRequest :=
              { id := newId, userId := userId, walletId := wallet.id,
                accountId := account.id, amount := dto.amount,
                status := .PENDING }
            let st1 : St :=
              { st with payoutRequests := st.payoutRequests ++ [payoutRequest] }
            match createTransaction st1
                { walletId := wallet.id, type := .PAYOUT_REQUEST,
                  amount := -dto.amount,
                  description := "Penarikan ke " ++ account.bankName ++ " - "
                    ++ account.accountNumber,
                  payoutRequestId := some payoutRequest.id } with
            | .error e => .error e
            | .ok (st2, _) => .ok (st2, payoutRequest)

end WalletsService

namespace OrdersService

/-- The requester's role for an order access check. -/
inductive Role where
  | buyer | seller
  deriving DecidableEq

/-- OrdersService.findOneWithAccess (src/unnamed/part_008 lines 692-714):
findFirst the order by id scoped by role; no match is a NotFound. -/
def findOneWithAccess (st : St) (orderId userId : String)
    (requiredRole : Role) : Except ApiError Order :=
  match st.orders.find? (fun o => o.id == orderId) with
  | none => .error (.notFound "Order tidak ditemukan")
  | some order =>
    match requiredRole with
    | .buyer =>
      if order.buyerId == userId then .ok order
      else .error (.notFound "Order tidak ditemukan")
    | .seller =>
      match st.services.find? (fun s => s.id == order.serviceId) with
      | some service =>
        if service.sellerId == userId then .ok order
        else .error (.notFound "Order tidak ditemukan")
      | none => .error (.notFound "Order tidak ditemukan")

/-- The RequestRevisionDto (src/unnamed/part_009): the revision note; its
attachments play no role in the service logic. -/
structure RequestRevisionDto where
  revisionNote : String
  deriving DecidableEq

/-- OrdersService.requestRevision (src/unnamed/part_008 lines 355-392):
buyer-only, requires DELIVERED, checks the revision quota, then bumps
revisionCount, appends the note and flips the status to REVISION. -/
def requestRevision (st : St) (orderId buyerId : String)
    (dto : RequestRevisionDto) : Except ApiError (St × Order) :=
  match findOneWithAccess st orderId buyerId .buyer with
  | .error e => .error e
  | .ok order =>
    if order.status ≠ .DELIVERED then
      .error (.badRequest "Revisi hanya bisa diminta setelah hasil dikirim")
    else if order.revisionCount ≥ order.maxRevisions then
      .error (.badRequest ("Anda sudah menggunakan semua "
        ++ toString order.maxRevisions ++ " kali revisi yang tersedia"))
    else
      let upd := fun (o : Order) =>
        { o with status := OrderStatus.REVISION,
                 revisionCount := o.revisionCount + 1,
                 revisionNotes := o.revisionNotes ++ [dto.revisionNote] }
      let st' :=
        { st with orders := listUpdate (fun o => o.id == orderId) upd st.orders }
      .ok (st', upd order)

/-- The DeliverOrderDto. -/
structure DeliverOrderDto where
  deliveryFiles : List String
  deliveryNote : String
  deriving DecidableEq

/-- OrdersService.deliverWork (src/unnamed/part_008 lines 305-347):
seller-only, requires IN_PROGRESS or REVISION, records the delivery
artifacts, flips to DELIVERED and notifies the buyer. -/
def deliverWork (st : St) (orderId sellerId : String) (dto : DeliverOrderDto)
    (now : Nat) : Except ApiError (St × Order) :=
  match st.orders.find? (fun o => o.id == orderId) with
  | none => .error (.notFound "Order tidak ditemukan")
  | some order =>
    match st.services.find? (fun s => s.id == order.serviceId) with
    | none => .error (.notFound "Order tidak ditemukan")
    | some service =>
      if service.sellerId ≠ sellerId then
        .error (.notFound "Order tidak ditemukan")
      else if order.status ≠ .IN_PROGRESS ∧ order.status ≠ .REVISION then
        .error (.badRequest "Order harus dalam status dikerjakan atau revisi")
      else
        let upd := fun (o : Order) =>
          { o with status := OrderStatus.DELIVERED,
                   deliveryFiles := dto.deliveryFiles,
                   deliveryNote := some dto.deliveryNote,
                   deliveredAt := some now }
        let st' :=
          { st with orders := listUpdate (fun o => o.id == orderId) upd st.orders }
        let updated := upd order
        .ok (notifyCreate st' updated.buyerId
          ("Pekerjaan untuk pesanan #" ++ updated.id.take 8 ++ " telah dikirim!")
          ("/buyer/orders/" ++ updated.id) "ORDER", updated)

/-- The CancelOrderSchema reason field (min 20, max 500 characters). -/
structure CancelOrderDto where
  reason : String
  deriving DecidableEq

/-- The status list src/unnamed/part_008 line 443 compares against. The
stored OrderStatus values are the uppercase enum member names
(OrderStatus.dbName), so this membership test is what the code runs. -/
def cancellableStatuses : List String := ["draft", "waiting_payment", "paid_escrow"]

/-- OrdersService.cancelOrder (src/unnamed/part_008 lines 423-496): find
the order scoped by role, gate on cancellableStatuses, flip to CANCELLED
recording the reason, and if the order isPaid refund the full price to the
buyer wallet (ESCROW_REFUND) inside the same transaction. Returns the
order and the refunded flag. -/
def cancelOrder (st : St) (orderId userId : String) (role : Role)
    (dto : CancelOrderDto) (now : Nat) : Except ApiError (St × Order × Bool) :=
  let found : Option Order :=
    match st.orders.find? (fun o => o.id == orderId) with
    | none => none
    | some o =>
      match role with
      | .buyer => if o.buyerId == userId then some o else none
      | .seller =>
        match st.services.find? (fun s => s.id == o.serviceId) with
        | some s => if s.sellerId == userId then some o else none
        | none => none
  match found with
  | none => .error (.notFound "Order tidak ditemukan")
  | some order =>
    if ¬ (cancellableStatuses.contains order.status.dbName) then
      .error (.badRequest
        "Order dengan status ini tidak bisa dibatalkan. Silakan buka dispute jika ada masalah.")
    else
      let needsRefund := order.isPaid
      let upd := fun (o : Order) =>
        { o with status := OrderStatus.CANCELLED, cancelledAt := some now,
                 cancellationReason := some dto.reason }
      let st1 :=
        { st with orders := listUpdate (fun o => o.id == orderId) upd st.orders }
      if needsRefund then
        match st1.wallets.find? (fun w => w.userId == order.buyerId) with
        | none => .error (.prismaNotFound "Wallet")
        | some buyerWallet =>
          match WalletsService.createTransaction st1
              { walletId := buyerWallet.id, type := .ESCROW_REFUND,
                amount := order.price, orderId := some order.id,
                description := "Refund untuk order dibatalkan #"
                  ++ order.id.take 8 } with
          | .error e => .error e
          | .ok (st2, _) => .ok (st2, upd order, true)
      else
        .ok (st1, upd order, false)

/-- OrdersService.completeOrder (src/unnamed/part_008 lines 720-769): one
transaction that sets the order COMPLETED, bumps Service.totalOrders and
the seller's totalOrdersCompleted, reads the seller wallet with
findUniqueOrThrow, and releases price minus the 10 percent platform fee to
it as ESCROW_RELEASE. -/
def completeOrder (st : St) (orderId sellerId : String) (now : Nat) :
    Except ApiError (St × Order) :=
  match st.orders.find? (fun o => o.id == orderId) with
  | none => .error (.prismaNotFound "Order")
  | some order =>
    let updO := fun (o : Order) =>
      { o with status := OrderStatus.COMPLETED, completedAt := some now }
    let completedOrder := updO order
    let st1 := { st with orders := listUpdate (fun o => o.id == orderId) updO st.orders }
    match st1.services.find? (fun s => s.id == completedOrder.serviceId) with
    | none => .error (.prismaNotFound "Service")
    | some _ =>
      let updS := fun (s : Service) => { s with totalOrders := s.totalOrders + 1 }
      let st2 := { st1 with services := listUpdate (fun s => s.id == completedOrder.serviceId) updS st1.services }
      match st2.users.find? (fun u => u.id == sellerId) with
      | none => .error (.prismaNotFound "User")
      | some _ =>
        let updU := fun (u : User) => { u with totalOrdersCompleted := u.totalOrdersCompleted + 1 }
        let st3 := { st2 with users := listUpdate (fun u => u.id == sellerId) updU st2.users }
        match st3.wallets.find? (fun w => w.userId == sellerId) with
        | none => .error (.prismaNotFound "Wallet")
        | some sellerWallet =>
          let orderPrice := completedOrder.price
          let platformFee := orderPrice * (1 / 10)
          let amountToSeller := orderPrice - platformFee
          match WalletsService.createTransaction st3
              { walletId := sellerWallet.id, type := .ESCROW_RELEASE,
                amount := amountToSeller, orderId := some completedOrder.id,
                description := "Dana Masuk untuk order #"
                  ++ completedOrder.id.take 8 } with
          | .error e => .error e
          | .ok (st4, _) => .ok (st4, completedOrder)

/-- OrdersService.handlePaymentSuccess (src/unnamed/part_008 lines
188-253): the payment.settled listener. A missing order or an already paid
order short-circuits with no effect; otherwise one transaction flips the
order to PAID_ESCROW, updates the Payment row to SETTLEMENT and notifies
the seller. A throw inside the transaction is caught by the handler, so
the state is then left unchanged. -/
def handlePaymentSuccess (st : St) (orderId txId pType : String) (now : Nat) : St :=
  match st.orders.find? (fun o => o.id == orderId) with
  | none => st
  | some order =>
    if order.isPaid then st
    else
      let updO := fun (o : Order) =>
        { o with status := OrderStatus.PAID_ESCROW, isPaid := true, paidAt := some now }
      let st1 := { st with orders := listUpdate (fun o => o.id == orderId) updO st.orders }
      match st1.payments.find? (fun p => p.orderId == orderId) with
      | none => st
      | some _ =>
        let updP := fun (p : Payment) =>
          { p with status := PaymentStatus.SETTLEMENT, transactionId := some txId, paymentType := some pType }
        let st2 := { st1 with payments := listUpdate (fun p => p.orderId == orderId) updP st1.payments }
        match st2.services.find? (fun s => s.id == order.serviceId) with
        | none => st
        | some service =>
          notifyCreate st2 service.sellerId
            ("Pesanan baru #" ++ order.id.take 8 ++ " telah dibayar!")
            ("/seller/orders/" ++ order.id) "ORDER"

end OrdersService

namespace PaymentsService

/-- The Midtrans webhook payload fields the handler reads. -/
structure WebhookPayload where
  order_id : String
  transaction_status : String
  transaction_id : String
  status_code : String
  gross_amount : String
  signature_key : String
  payment_type : String
  fraud_status : String := ""
  deriving DecidableEq

/-- The characters before the first occurrence of the two-character marker
hyphen-T, or the whole list when the marker is absent. -/
def takeBeforeMarker : List Char → List Char
  | [] => []
  | '-' :: 'T' :: _ => []
  | c :: rest => c :: takeBeforeMarker rest

/-- The original-order-id extraction of src/src/payments/payments.service.ts
lines 195-202 (indexOf of the marker, then substring(0, index)): the
substring before the first occurrence of the hyphen-T marker, or the whole
id when the marker is absent. -/
def originalOrderIdOf (midtransOrderId : String) : String :=
  String.mk (takeBeforeMarker midtransOrderId.toList)

/-- PaymentsService.handlePaymentWebhook (src/src/payments/payments.service.ts
lines 185-304), up to the event dispatch: returns the new state, the
recovered original order id, and whether the payment.settled event was
emitted. The signature verification only logs on mismatch (the source
bypasses it), so it has no effect here; every thrown error is rewrapped by
the catch block into a generic internal failure, and all throws happen
before any write. -/
def handlePaymentWebhook (st : St) (payload : WebhookPayload) :
    Except ApiError (St × String × Bool) :=
  let midtransOrderId := payload.order_id
  let originalOrderId := originalOrderIdOf midtransOrderId
  if midtransOrderId == "" || payload.transaction_status == ""
      || payload.gross_amount == "" || payload.signature_key == "" then
    .error (.internal "Failed to process webhook")
  else
    match st.payments.find? (fun p => p.orderId == originalOrderId) with
    | none => .error (.internal "Failed to process webhook")
    | some payment =>
      if payment.status == .SETTLEMENT && payload.transaction_status == "settlement" then
        .ok (st, originalOrderId, false)
      else
        let updatedStatus :=
          if payload.transaction_status == "capture" then
            if payload.fraud_status == "challenge" then PaymentStatus.PENDING
            else if payload.fraud_status == "accept" then PaymentStatus.SETTLEMENT
            else payment.status
          else if payload.transaction_status == "settlement" then
            PaymentStatus.SETTLEMENT
          else if payload.transaction_status == "cancel"
              || payload.transaction_status == "deny"
              || payload.transaction_status == "expire" then
            PaymentStatus.CANCELLED
          else if payload.transaction_status == "pending" then
            PaymentStatus.PENDING
          else payment.status
        let updP := fun (p : Payment) =>
          { p with status := updatedStatus, transactionId := some payload.transaction_id, paymentType := some payload.payment_type }
        let st1 := { st with payments := listUpdate (fun p => p.id == payment.id) updP st.payments }
        .ok (st1, originalOrderId, updatedStatus == .SETTLEMENT)

/-- One full delivery of a webhook: handlePaymentWebhook followed, when the
payment.settled event fires, by the synchronous OrdersService listener (the
in-process event emitter delivers immediately). A processing error leaves
the state unchanged, since every throw happens before any write. -/
def deliverWebhook (st : St) (payload : WebhookPayload) (now : Nat) : St :=
  match handlePaymentWebhook st payload with
  | .error _ => st
  | .ok (st1, originalOrderId, emitted) =>
    if emitted then
      OrdersService.handlePaymentSuccess st1 originalOrderId
        payload.transaction_id payload.payment_type now
    else st1

end PaymentsService

namespace AdminService

/-- AdminService.approvePayout (src/unnamed/part_007 lines 131-148): a bare
update to COMPLETED with processedAt, then a notification; there is no
status precondition and no ledger entry. -/
def approvePayout (st : St) (payoutId : String) (now : Nat) :
    Except ApiError St :=
  match st.payoutRequests.find? (fun r => r.id == payoutId) with
  | none => .error (.prismaNotFound "PayoutRequest")
  | some payout =>
    let updR := fun (r : PayoutRequest) =>
      { r with status := PayoutStatus.COMPLETED, processedAt := some now, adminNotes := some "Disetujui dan telah diproses." }
    let st1 := { st with payoutRequests := listUpdate (fun r => r.id == payoutId) updR st.payoutRequests }
    .ok (notifyCreate st1 payout.userId
      ("Penarikan dana Anda sebesar Rp " ++ toString payout.amount
        ++ " telah disetujui.") "/wallet/payouts" "WALLET")

/-- AdminService.rejectPayout (src/unnamed/part_007 lines 154-201): the
request must still be PENDING; one transaction flips it to REJECTED and
credits the held amount back through createTransaction (PAYOUT_REJECTED),
then notifies the requester. -/
def rejectPayout (st : St) (payoutId reason : String) (now : Nat) :
    Except ApiError (St × PayoutRequest) :=
  match st.payoutRequests.find? (fun r => r.id == payoutId) with
  | none => .error (.notFound "Permintaan penarikan tidak ditemukan")
  | some payout =>
    if payout.status ≠ .PENDING then
      .error (.badRequest ("Permintaan ini sudah berstatus " ++ payout.status.dbName))
    else
      let upd := fun (r : PayoutRequest) =>
        { r with status := PayoutStatus.REJECTED, processedAt := some now, adminNotes := some reason }
      let st1 := { st with payoutRequests := listUpdate (fun r => r.id == payoutId) upd st.payoutRequests }
      match WalletsService.createTransaction st1
          { walletId := payout.walletId, type := .PAYOUT_REJECTED,
            amount := payout.amount,
            description := "Pengembalian dana penarikan ditolak: " ++ reason,
            payoutRequestId := some payout.id } with
      | .error e => .error e
      | .ok (st2, _) =>
        .ok (notifyCreate st2 payout.userId
          ("Penarikan dana Anda ditolak. Alasan: " ++ reason)
          "/wallet/payouts" "WALLET", upd payout)

/-- The ResolveDisputeDto. -/
structure ResolveDisputeDto where
  resolution : DisputeResolution
  adminNotes : Option String := none
  deriving DecidableEq

/-- AdminService.resolveDispute (src/unnamed/part_007 lines 226-310): only
an OPEN dispute can be resolved; one transaction marks it RESOLVED with the
chosen resolution and either refunds the full order price to the buyer
wallet (DISPUTE_REFUND, with the order set to RESOLVED) or delegates to
OrdersService.completeOrder towards the seller, then notifies both
parties. -/
def resolveDispute (st : St) (adminId disputeId : String)
    (dto : ResolveDisputeDto) (now : Nat) : Except ApiError (St × Dispute) :=
  match st.disputes.find? (fun d => d.id == disputeId) with
  | none => .error (.notFound "Sengketa tidak ditemukan")
  | some dispute =>
    if dispute.status ≠ .OPEN then
      .error (.badRequest "Sengketa ini sudah diselesaikan")
    else
      match st.orders.find? (fun o => o.id == dispute.orderId) with
      | none => .error (.prismaNotFound "Order")
      | some order =>
        match st.services.find? (fun s => s.id == order.serviceId) with
        | none => .error (.prismaNotFound "Service")
        | some service =>
          let updD := fun (d : Dispute) =>
            { d with status := DisputeStatus.RESOLVED, resolution := some dto.resolution, adminNotes := dto.adminNotes, resolvedById := some adminId, resolvedAt := some now }
          let st1 := { st with disputes := listUpdate (fun d => d.id == disputeId) updD st.disputes }
          let sellerId := service.sellerId
          let buyerId := order.buyerId
          let afterResolution : Except ApiError St :=
            match dto.resolution with
            | .REFUND_TO_BUYER =>
              let st2 := { st1 with orders := listUpdate (fun o => o.id == dispute.orderId) (fun o => { o with status := OrderStatus.RESOLVED }) st1.orders }
              match st2.wallets.find? (fun w => w.userId == buyerId) with
              | none => .error (.prismaNotFound "Wallet")
              | some buyerWallet =>
                match WalletsService.createTransaction st2
                    { walletId := buyerWallet.id, orderId := some dispute.orderId,
                      type := .DISPUTE_REFUND, amount := order.price,
                      description := "Refund sengketa order #"
                        ++ dispute.orderId.take 8 } with
                | .error e => .error e
                | .ok (st3, _) => .ok st3
            | .RELEASE_TO_SELLER =>
              match OrdersService.completeOrder st1 dispute.orderId sellerId now with
              | .error e => .error e
              | .ok (st2, _) => .ok st2
          match afterResolution with
          | .error e => .error e
          | .ok stR =>
            let stN1 := notifyCreate stR buyerId
              ("Sengketa untuk pesanan #" ++ dispute.orderId.take 8
                ++ " telah diselesaikan.")
              ("/orders/" ++ dispute.orderId ++ "/dispute") "DISPUTE"
            let stN2 := notifyCreate stN1 sellerId
              ("Sengketa untuk pesanan #" ++ dispute.orderId.take 8
                ++ " telah diselesaikan.")
              ("/orders/" ++ dispute.orderId ++ "/dispute") "DISPUTE"
            .ok (stN2, updD dispute)

end AdminService

theorem find?_map_comm {α : Type} (g : α → α) (p : α → Bool)
    (h : ∀ x, p (g x) = p x) :
    ∀ l : List α, (l.map g).find? p = (l.find? p).map g := by
  intro l
  induction l with
  | nil => rfl
  | cons x xs ih =>
    rw [List.map_cons, List.find?_cons, List.find?_cons, h x]
    cases hpx : p x
    · exact ih
    · rfl

/-- C1: with the target wallet present, createTransaction fails with the
insufficient-funds error exactly when balanceBefore + amount < 0 (on
failure the returned Except carries no state, so the wallet balance is
unchanged and no WalletTransaction row exists); on success the wallet
balance becomes balanceBefore + amount and exactly one WalletTransaction
row is appended, in the same returned (atomic) state. -/
theorem createTransaction_spec (st : St) (input : WalletsService.TransactionInput)
    (w : Wallet) (hw : st.wallets.find? (fun x => x.id == input.walletId) = some w) :
    (WalletsService.createTransaction st input
        = .error (.internal "Gagal memproses transaksi: Saldo tidak mencukupi")
      ↔ w.balance + input.amount < 0) ∧
    (∀ st' t, WalletsService.createTransaction st input = .ok (st', t) →
      t.balanceBefore = w.balance ∧
      t.balanceAfter = w.balance + input.amount ∧
      t.amount = input.amount ∧
      st'.walletTransactions = st.walletTransactions ++ [t] ∧
      (st'.wallets.find? (fun x => x.id == input.walletId)).map Wallet.balance
        = some (w.balance + input.amount) ∧
      st'.orders = st.orders ∧ st'.payoutRequests = st.payoutRequests) := by
  have hpw := List.find?_some hw
  simp only [] at hpw
  unfold WalletsService.createTransaction
  rw [hw]
  by_cases hlt : w.balance + input.amount < 0
  · simp only [hlt, if_pos]
    constructor
    · simp
    · intro st' t h
      simp at h
  · simp only [hlt, if_neg, if_false]
    constructor
    · constructor
      · intro h
        simp at h
      · intro h
        exact h.elim
    · intro st' t h
      injection h with h1
      injection h1 with hst ht
      subst hst
      subst ht
      refine ⟨rfl, rfl, rfl, rfl, ?_, rfl, rfl⟩
      have hid : w.id = input.walletId := by simpa using hpw
      rw [listUpdate, find?_map_comm _ _ ?_ st.wallets, hw]
      · simp [hid]
      · intro x
        by_cases hx : (x.id == input.walletId) = true
        · simp [hx]
        · simp [hx]

/-- C1 witness: a concrete wallet with balance 100; a debit of 150 hits the
insufficient-funds branch, which by the theorem is equivalent to
100 - 150 < 0. -/
theorem createTransaction_spec_witness :
    (WalletsService.createTransaction
        { wallets := [{ id := "w1", userId := "u1", balance := 100 }] }
        { walletId := "w1", type := .PAYOUT_REQUEST, amount := -150,
          description := "tarik" }
      = .error (.internal "Gagal memproses transaksi: Saldo tidak mencukupi")
      ↔ (100 : Money) + (-150) < 0) ∧
    ((100 : Money) + (-150) < 0) :=
  ⟨(createTransaction_spec
      { wallets := [{ id := "w1", userId := "u1", balance := 100 }] }
      { walletId := "w1", type := .PAYOUT_REQUEST, amount := -150,
        description := "tarik" }
      { id := "w1", userId := "u1", balance := 100 } (by decide)).1,
    by norm_num⟩

theorem createTransaction_mkLedgerSt (w : Wallet) (log : List WalletTransaction)
    (input : WalletsService.TransactionInput) (hid : input.walletId = w.id) :
    WalletsService.createTransaction (WalletsService.mkLedgerSt w log) input =
      if w.balance + input.amount < 0 then
        .error (.internal "Gagal memproses transaksi: Saldo tidak mencukupi")
      else
        .ok (WalletsService.mkLedgerSt { w with balance := w.balance + input.amount }
          (log ++ [{ walletId := input.walletId, type := input.type,
                     amount := input.amount, description := input.description,
                     orderId := input.orderId, paymentId := input.paymentId,
                     payoutRequestId := input.payoutRequestId,
                     balanceBefore := w.balance,
                     balanceAfter := w.balance + input.amount }]),
          { walletId := input.walletId, type := input.type,
            amount := input.amount, description := input.description,
            orderId := input.orderId, paymentId := input.paymentId,
            payoutRequestId := input.payoutRequestId,
            balanceBefore := w.balance,
            balanceAfter := w.balance + input.amount }) := by
  simp only [WalletsService.createTransaction, WalletsService.mkLedgerSt,
    listUpdate, List.find?_cons, hid, beq_self_eq_true, List.map_cons,
    List.map_nil, if_true]

theorem runLedger_chain (reqs : List WalletsService.LedgerRequest) :
    ∀ (w : Wallet) (log : List WalletTransaction) (st' : St),
      WalletsService.runLedger (WalletsService.mkLedgerSt w log) w.id reqs = .ok st' →
      ∃ (w' : Wallet) (newTxs : List WalletTransaction),
        st' = WalletsService.mkLedgerSt w' (log ++ newTxs) ∧ w'.id = w.id ∧
          chainFrom w.balance newTxs w'.balance := by
  induction reqs with
  | nil =>
    intro w log st' h
    refine ⟨w, [], ?_, rfl, rfl⟩
    simp only [WalletsService.runLedger] at h
    injection h with h
    simp [h.symm]
  | cons r rs ih =>
    intro w log st' h
    simp only [WalletsService.runLedger] at h
    rw [createTransaction_mkLedgerSt w log _ rfl] at h
    by_cases hneg : w.balance + r.amount < 0
    · rw [if_pos hneg] at h
      exact absurd h (by simp)
    · rw [if_neg hneg] at h
      obtain ⟨w', newTxs, hst, hwid, hchain⟩ :=
        ih { w with balance := w.balance + r.amount }
          (log ++ [{ walletId := w.id, type := r.type, amount := r.amount,
                     description := r.description, orderId := r.orderId,
                     paymentId := r.paymentId,
                     payoutRequestId := r.payoutRequestId,
                     balanceBefore := w.balance,
                     balanceAfter := w.balance + r.amount }]) st' h
      refine ⟨w',
        { walletId := w.id, type := r.type, amount := r.amount,
          description := r.description, orderId := r.orderId,
          paymentId := r.paymentId, payoutRequestId := r.payoutRequestId,
          balanceBefore := w.balance,
          balanceAfter := w.balance + r.amount } :: newTxs,
        ?_, hwid, rfl, rfl, hchain⟩
      rw [hst]
      simp

theorem chainFrom_sum :
    ∀ (txs : List WalletTransaction) (b e : Money),
      chainFrom b txs e → e = b + (txs.map WalletTransaction.amount).sum := by
  intro txs
  induction txs with
  | nil => intro b e h; simpa [chainFrom] using h.symm
  | cons t ts ih =>
    intro b e h
    obtain ⟨_, hafter, hrest⟩ := h
    have := ih t.balanceAfter e hrest
    rw [this, hafter]
    simp
    try ring

theorem chainFrom_each :
    ∀ (txs : List WalletTransaction) (b e : Money),
      chainFrom b txs e →
        ∀ t ∈ txs, t.balanceAfter = t.balanceBefore + t.amount := by
  intro txs
  induction txs with
  | nil => intro b e _ t ht; simp at ht
  | cons t0 ts ih =>
    intro b e h t ht
    obtain ⟨hbefore, hafter, hrest⟩ := h
    rcases List.mem_cons.mp ht with heq | hmem
    · subst heq; rw [hafter, hbefore]
    · exact ih t0.balanceAfter e hrest t hmem

theorem chainFrom_adjacent :
    ∀ (txs : List WalletTransaction) (b e : Money),
      chainFrom b txs e →
        ∀ i (hi : i + 1 < txs.length),
          (txs.get ⟨i, Nat.lt_of_succ_lt hi⟩).balanceAfter
            = (txs.get ⟨i + 1, hi⟩).balanceBefore := by
  intro txs
  induction txs with
  | nil => intro b e _ i hi; simp at hi
  | cons t0 ts ih =>
    intro b e h i hi
    obtain ⟨hbefore, hafter, hrest⟩ := h
    cases i with
    | zero =>
      cases ts with
      | nil => simp at hi
      | cons t1 ts' =>
        obtain ⟨hb1, _, _⟩ := hrest
        exact hb1.symm
    | succ j =>
      exact ih t0.balanceAfter e hrest j (Nat.lt_of_succ_lt_succ hi)

theorem chainFrom_last :
    ∀ (txs : List WalletTransaction) (b e : Money),
      chainFrom b txs e →
        ∀ t, txs.getLast? = some t → t.balanceAfter = e := by
  intro txs
  induction txs with
  | nil => intro b e _ t ht; simp at ht
  | cons t0 ts ih =>
    intro b e h t ht
    obtain ⟨hbefore, hafter, hrest⟩ := h
    cases ts with
    | nil =>
      simp at ht
      subst ht
      simpa [chainFrom] using hrest
    | cons t1 ts' =>
      rw [List.getLast?_cons_cons] at ht
      exact ih t0.balanceAfter e hrest t ht

/-- C2: starting from a wallet at balance 0, any successful sequence of
ledger operations (each applied through createTransaction) yields a state
in which the wallet balance equals the sum of all WalletTransaction
amounts, every transaction satisfies balanceAfter = balanceBefore + amount,
each transaction's balanceAfter equals the next one's balanceBefore, and
the last transaction's balanceAfter equals the wallet's balance (so each
entry recorded the wallet's balance at its creation instant). -/
theorem runLedger_props (wid uid : String)
    (reqs : List WalletsService.LedgerRequest) (st' : St)
    (h : WalletsService.runLedger
        (WalletsService.mkLedgerSt { id := wid, userId := uid, balance := 0 } [])
        wid reqs = .ok st') :
    ((st'.wallets.find? (fun x => x.id == wid)).map Wallet.balance
        = some ((st'.walletTransactions.map WalletTransaction.amount).sum)) ∧
    (∀ t ∈ st'.walletTransactions, t.balanceAfter = t.balanceBefore + t.amount) ∧
    (∀ i (hi : i + 1 < st'.walletTransactions.length),
        (st'.walletTransactions.get ⟨i, Nat.lt_of_succ_lt hi⟩).balanceAfter
          = (st'.walletTransactions.get ⟨i + 1, hi⟩).balanceBefore) ∧
    (∀ t, st'.walletTransactions.getLast? = some t →
        t.balanceAfter = (st'.walletTransactions.map WalletTransaction.amount).sum) := by
  obtain ⟨w', newTxs, hst, hwid, hchain⟩ :=
    runLedger_chain reqs { id := wid, userId := uid, balance := 0 } [] st' h
  subst hst
  have hsum := chainFrom_sum newTxs 0 w'.balance hchain
  simp only [WalletsService.mkLedgerSt, List.nil_append]
  refine ⟨?_, chainFrom_each newTxs 0 w'.balance hchain,
    chainFrom_adjacent newTxs 0 w'.balance hchain, ?_⟩
  · have hwid2 : w'.id = wid := hwid
    rw [← hwid2]
    simp [List.find?_cons, hsum]
  · intro t ht
    rw [chainFrom_last newTxs 0 w'.balance hchain t ht, hsum]
    simp

/-- C2 witness: a release of 90000 followed by a payout debit of 50000,
starting from balance 0, leaves the wallet at 40000 = sum of the two
recorded amounts. -/
theorem runLedger_props_witness :
    (({ wallets := [{ id := "w1", userId := "u1", balance := 40000 }],
        walletTransactions :=
          [{ walletId := "w1", type := .ESCROW_RELEASE, amount := 90000,
             description := "in", balanceBefore := 0, balanceAfter := 90000 },
           { walletId := "w1", type := .PAYOUT_REQUEST, amount := -50000,
             description := "out", balanceBefore := 90000,
             balanceAfter := 40000 }] } : St).wallets.find?
        (fun x => x.id == "w1")).map Wallet.balance
      = some ((({
              wallets := [{ id := "w1", userId := "u1", balance := 40000 }],
              walletTransactions :=
                [{ walletId := "w1", type := .ESCROW_RELEASE, amount := 90000,
                   description := "in", balanceBefore := 0,
                   balanceAfter := 90000 },
                 { walletId := "w1", type := .PAYOUT_REQUEST, amount := -50000,
                   description := "out", balanceBefore := 90000,
                   balanceAfter := 40000 }] } : St).walletTransactions.map
        WalletTransaction.amount).sum) :=
  (runLedger_props "w1" "u1"
    [{ type := .ESCROW_RELEASE, amount := 90000, description := "in" },
     { type := .PAYOUT_REQUEST, amount := -50000, description := "out" }]
    { wallets := [{ id := "w1", userId := "u1", balance := 40000 }],
      walletTransactions :=
        [{ walletId := "w1", type := .ESCROW_RELEASE, amount := 90000,
           description := "in", balanceBefore := 0, balanceAfter := 90000 },
         { walletId := "w1", type := .PAYOUT_REQUEST, amount := -50000,
           description := "out", balanceBefore := 90000,
           balanceAfter := 40000 }] }
    (by norm_num [WalletsService.runLedger, WalletsService.createTransaction,
      WalletsService.mkLedgerSt, listUpdate])).1

/-- C3: contrary to the claim, cancelOrder never succeeds: the status guard
compares the stored uppercase OrderStatus names against the lowercase list
cancellableStatuses, so every found order — whatever its status, role or
reason — is rejected with the invalid-state error. (The surrounding doc
comment in the source states the intended DRAFT / WAITING_PAYMENT /
PAID_ESCROW rules; the lowercase literals are the slip.) -/
theorem cancelOrder_always_rejects (st : St) (orderId userId : String)
    (role : OrdersService.Role) (dto : OrdersService.CancelOrderDto) (now : Nat)
    (o : Order) (ho : st.orders.find? (fun x => x.id == orderId) = some o)
    (hrole : match role with
      | .buyer => o.buyerId = userId
      | .seller => ∃ s, st.services.find? (fun x => x.id == o.serviceId) = some s
          ∧ s.sellerId = userId) :
    OrdersService.cancelOrder st orderId userId role dto now
      = .error (.badRequest
          "Order dengan status ini tidak bisa dibatalkan. Silakan buka dispute jika ada masalah.") := by
  cases role with
  | buyer =>
    simp only at hrole
    simp only [OrdersService.cancelOrder, ho, hrole, beq_self_eq_true, if_true]
    cases o.status <;>
      simp [OrdersService.cancellableStatuses, OrderStatus.dbName]
  | seller =>
    obtain ⟨s, hs, hsid⟩ := hrole
    simp only [OrdersService.cancelOrder, ho, hs, hsid, beq_self_eq_true, if_true]
    cases o.status <;>
      simp [OrdersService.cancellableStatuses, OrderStatus.dbName]

/-- C3 witness: a buyer cancelling their own DRAFT order with a 40-character
reason is still rejected with the invalid-state error. -/
theorem cancelOrder_always_rejects_witness :
    OrdersService.cancelOrder
      { orders := [{ id := "o1", serviceId := "s1", buyerId := "b",
                     title := "Jasa", price := 100000, deliveryTime := 3,
                     maxRevisions := 2, revisionCount := 0,
                     revisionNotes := [], requirements := "tolong kerjakan",
                     status := .DRAFT, isPaid := false }] }
      "o1" "b" .buyer
      { reason := "Saya berubah pikiran tentang pesanan ini" } 0
      = .error (.badRequest
          "Order dengan status ini tidak bisa dibatalkan. Silakan buka dispute jika ada masalah.") :=
  cancelOrder_always_rejects
    { orders := [{ id := "o1", serviceId := "s1", buyerId := "b",
                   title := "Jasa", price := 100000, deliveryTime := 3,
                   maxRevisions := 2, revisionCount := 0,
                   revisionNotes := [], requirements := "tolong kerjakan",
                   status := .DRAFT, isPaid := false }] }
    "o1" "b" .buyer
    { reason := "Saya berubah pikiran tentang pesanan ini" } 0
    { id := "o1", serviceId := "s1", buyerId := "b",
      title := "Jasa", price := 100000, deliveryTime := 3,
      maxRevisions := 2, revisionCount := 0,
      revisionNotes := [], requirements := "tolong kerjakan",
      status := .DRAFT, isPaid := false }
    (by decide) (by simp)

theorem find?_listUpdate_self {α : Type} (p : α → Bool) (f : α → α)
    (hpf : ∀ x, p (f x) = p x) (l : List α) (x : α) (h : l.find? p = some x) :
    (listUpdate p f l).find? p = some (f x) := by
  rw [listUpdate, find?_map_comm _ _ ?_ l, h]
  · have hx := List.find?_some h
    simp [hx]
  · intro y
    by_cases hy : p y
    · simp [hy, hpf]
    · simp [hy]

/-- C4: with the order, its service, the seller and the seller wallet all
present (and nonnegative price and balance), completeOrder succeeds in one
atomic unit: the order becomes COMPLETED, Service.totalOrders and the
seller's totalOrdersCompleted each grow by one, the seller wallet is
credited exactly price * (1 - 1/10), and exactly one ESCROW_RELEASE ledger
row for that amount is appended. -/
theorem completeOrder_spec (st : St) (orderId sellerId : String) (now : Nat)
    (o : Order) (sv : Service) (u : User) (w : Wallet)
    (ho : st.orders.find? (fun x => x.id == orderId) = some o)
    (hsv : st.services.find? (fun x => x.id == o.serviceId) = some sv)
    (hu : st.users.find? (fun x => x.id == sellerId) = some u)
    (hw : st.wallets.find? (fun x => x.userId == sellerId) = some w)
    (hwid : st.wallets.find? (fun x => x.id == w.id) = some w)
    (hbal : 0 ≤ w.balance) (hprice : 0 ≤ o.price) :
    ∃ st' o', OrdersService.completeOrder st orderId sellerId now = .ok (st', o') ∧
      o'.status = .COMPLETED ∧
      (st'.orders.find? (fun x => x.id == orderId)).map Order.status
        = some .COMPLETED ∧
      (st'.services.find? (fun x => x.id == o.serviceId)).map Service.totalOrders
        = some (sv.totalOrders + 1) ∧
      (st'.users.find? (fun x => x.id == sellerId)).map User.totalOrdersCompleted
        = some (u.totalOrdersCompleted + 1) ∧
      (st'.wallets.find? (fun x => x.id == w.id)).map Wallet.balance
        = some (w.balance + o.price * (1 - 1 / 10)) ∧
      ∃ t, st'.walletTransactions = st.walletTransactions ++ [t] ∧
        t.type = .ESCROW_RELEASE ∧ t.amount = o.price * (1 - 1 / 10) ∧
        t.walletId = w.id ∧ t.orderId = some o.id := by
  have hnlt : ¬ (w.balance + (o.price - o.price * (1 / 10)) < 0) := by
    push_neg
    nlinarith
  simp only [OrdersService.completeOrder, ho, hsv, hu, hw,
    WalletsService.createTransaction, hwid, hnlt, if_false, if_neg,
    not_false_eq_true]
  refine ⟨_, _, rfl, rfl, ?_, ?_, ?_, ?_, ?_⟩
  · rw [find?_listUpdate_self _ _ ?_ st.orders o ho]
    · rfl
    · intro x; rfl
  · rw [find?_listUpdate_self _ _ ?_ st.services sv hsv]
    · rfl
    · intro x; rfl
  · rw [find?_listUpdate_self _ _ ?_ st.users u hu]
    · rfl
    · intro x; rfl
  · rw [find?_listUpdate_self _ _ ?_ st.wallets w hwid]
    · simp
      ring
    · intro x; rfl
  · refine ⟨_, rfl, rfl, ?_, rfl, rfl⟩
    simp
    ring

/-- C4 witness: completing an order of price 100000 credits the seller
wallet with exactly 90000 through one ESCROW_RELEASE row. -/
theorem completeOrder_spec_witness :
    ∃ st' o', OrdersService.completeOrder
      { orders := [{ id := "o1", serviceId := "s1", buyerId := "b",
                     title := "Jasa", price := 100000, deliveryTime := 3,
                     maxRevisions := 2, revisionCount := 0, revisionNotes := [],
                     requirements := "tugas", status := .DELIVERED,
                     isPaid := true }],
        services := [{ id := "s1", sellerId := "s", title := "Jasa",
                       price := 100000, deliveryTime := 3, revisions := 2,
                       isActive := true, status := "ACTIVE",
                       totalOrders := 0 }],
        users := [{ id := "s", totalOrdersCompleted := 0 }],
        wallets := [{ id := "w1", userId := "s", balance := 0 }] }
      "o1" "s" 0 = .ok (st', o') ∧
      (st'.wallets.find? (fun x => x.id == "w1")).map Wallet.balance
        = some 90000 ∧
      ∃ t, st'.walletTransactions = [] ++ [t] ∧
        t.type = .ESCROW_RELEASE ∧ t.amount = 90000 := by
  have h := completeOrder_spec
    { orders := [{ id := "o1", serviceId := "s1", buyerId := "b",
                   title := "Jasa", price := 100000, deliveryTime := 3,
                   maxRevisions := 2, revisionCount := 0, revisionNotes := [],
                   requirements := "tugas", status := .DELIVERED,
                   isPaid := true }],
      services := [{ id := "s1", sellerId := "s", title := "Jasa",
                     price := 100000, deliveryTime := 3, revisions := 2,
                     isActive := true, status := "ACTIVE", totalOrders := 0 }],
      users := [{ id := "s", totalOrdersCompleted := 0 }],
      wallets := [{ id := "w1", userId := "s", balance := 0 }] }
    "o1" "s" 0
    { id := "o1", serviceId := "s1", buyerId := "b",
      title := "Jasa", price := 100000, deliveryTime := 3,
      maxRevisions := 2, revisionCount := 0, revisionNotes := [],
      requirements := "tugas", status := .DELIVERED, isPaid := true }
    { id := "s1", sellerId := "s", title := "Jasa", price := 100000,
      deliveryTime := 3, revisions := 2, isActive := true, status := "ACTIVE",
      totalOrders := 0 }
    { id := "s", totalOrdersCompleted := 0 }
    { id := "w1", userId := "s", balance := 0 }
    (by decide) (by decide) (by decide) (by decide) (by decide)
    (by norm_num) (by norm_num)
  obtain ⟨st', o', hrun, hstat, hofind, hsfind, hufind, hbal, t, htx, hty, hamt,
    hwid, hoid⟩ := h
  refine ⟨st', o', hrun, ?_, t, htx, hty, ?_⟩
  · rw [hbal]
    norm_num
  · rw [hamt]
    norm_num

/-- C6: for an order the buyer owns, requestRevision in status DELIVERED
with revisionCount < maxRevisions succeeds, incrementing revisionCount by
exactly one, appending the note and setting REVISION (and the returned
order keeps revisionCount ≤ maxRevisions); with the quota exhausted it
fails with the revision-quota error, leaving the state untouched. -/
theorem requestRevision_spec (st : St) (orderId buyerId : String)
    (dto : OrdersService.RequestRevisionDto) (o : Order)
    (ho : st.orders.find? (fun x => x.id == orderId) = some o)
    (hbuyer : o.buyerId = buyerId) :
    (o.status = .DELIVERED → o.revisionCount < o.maxRevisions →
      ∃ st' o', OrdersService.requestRevision st orderId buyerId dto
          = .ok (st', o') ∧
        o'.revisionCount = o.revisionCount + 1 ∧
        o'.revisionNotes = o.revisionNotes ++ [dto.revisionNote] ∧
        o'.status = .REVISION ∧
        o'.maxRevisions = o.maxRevisions ∧
        o'.revisionCount ≤ o'.maxRevisions ∧
        st'.orders.find? (fun x => x.id == orderId) = some o') ∧
    (o.status = .DELIVERED → o.revisionCount ≥ o.maxRevisions →
      OrdersService.requestRevision st orderId buyerId dto
        = .error (.badRequest ("Anda sudah menggunakan semua "
            ++ toString o.maxRevisions ++ " kali revisi yang tersedia"))) := by
  have hb : (o.buyerId == buyerId) = true := by simp [hbuyer]
  constructor
  · intro hst hlt
    simp only [OrdersService.requestRevision, OrdersService.findOneWithAccess,
      ho, hb, if_true, hst]
    rw [if_neg (by simp), if_neg (Nat.not_le.mpr hlt)]
    refine ⟨_, _, rfl, rfl, rfl, rfl, rfl, Nat.succ_le_of_lt hlt, ?_⟩
    exact find?_listUpdate_self (fun x => x.id == orderId)
      (fun x => { x with status := OrderStatus.REVISION,
                         revisionCount := x.revisionCount + 1,
                         revisionNotes := x.revisionNotes ++ [dto.revisionNote] })
      (fun x => rfl) st.orders o ho
  · intro hst hge
    simp only [OrdersService.requestRevision, OrdersService.findOneWithAccess,
      ho, hb, if_true, hst]
    rw [if_neg (by simp), if_pos hge]

/-- C6 witness: an order with maxRevisions = 2 whose revisionCount has
reached 2 rejects the next requestRevision with the quota error. -/
theorem requestRevision_spec_witness :
    OrdersService.requestRevision
      { orders := [{ id := "o1", serviceId := "s1", buyerId := "b",
                     title := "Jasa", price := 100000, deliveryTime := 3,
                     maxRevisions := 2, revisionCount := 2,
                     revisionNotes := ["catatan revisi pertama yang panjang",
                       "catatan revisi kedua yang juga panjang"],
                     requirements := "tugas", status := .DELIVERED,
                     isPaid := true }] }
      "o1" "b" { revisionNote := "tolong revisi bagian ketiga dokumen ini" }
      = .error (.badRequest ("Anda sudah menggunakan semua "
          ++ toString (2 : Nat) ++ " kali revisi yang tersedia")) := by
  have h := requestRevision_spec
    { orders := [{ id := "o1", serviceId := "s1", buyerId := "b",
                   title := "Jasa", price := 100000, deliveryTime := 3,
                   maxRevisions := 2, revisionCount := 2,
                   revisionNotes := ["catatan revisi pertama yang panjang",
                     "catatan revisi kedua yang juga panjang"],
                   requirements := "tugas", status := .DELIVERED,
                   isPaid := true }] }
    "o1" "b" { revisionNote := "tolong revisi bagian ketiga dokumen ini" }
    { id := "o1", serviceId := "s1", buyerId := "b",
      title := "Jasa", price := 100000, deliveryTime := 3,
      maxRevisions := 2, revisionCount := 2,
      revisionNotes := ["catatan revisi pertama yang panjang",
        "catatan revisi kedua yang juga panjang"],
      requirements := "tugas", status := .DELIVERED, isPaid := true }
    (by decide) rfl
  exact h.2 rfl (by norm_num)

/-- C10: approvePayout checks no status precondition: for every existing
PayoutRequest, whatever its current status (REJECTED and COMPLETED
included), it succeeds, setting status COMPLETED with a processedAt
timestamp, and issues no ledger entry (walletTransactions and wallets are
untouched). -/
theorem approvePayout_spec (st : St) (payoutId : String) (now : Nat)
    (r : PayoutRequest)
    (hr : st.payoutRequests.find? (fun x => x.id == payoutId) = some r) :
    ∃ st', AdminService.approvePayout st payoutId now = .ok st' ∧
      (st'.payoutRequests.find? (fun x => x.id == payoutId)).map
          PayoutRequest.status = some .COMPLETED ∧
      (st'.payoutRequests.find? (fun x => x.id == payoutId)).map
          PayoutRequest.processedAt = some (some now) ∧
      st'.walletTransactions = st.walletTransactions ∧
      st'.wallets = st.wallets := by
  have h2 := find?_listUpdate_self (fun x => x.id == payoutId)
    (fun x => { x with status := PayoutStatus.COMPLETED,
                       processedAt := some now,
                       adminNotes := some "Disetujui dan telah diproses." })
    (fun x => rfl) st.payoutRequests r hr
  simp only [AdminService.approvePayout, hr, notifyCreate]
  refine ⟨_, rfl, ?_, ?_, rfl, rfl⟩
  · simp [h2]
  · simp [h2]

/-- C10 witness: an already REJECTED payout request (whose held funds were
credited back) is still flipped to COMPLETED by approvePayout, with no
ledger movement. -/
theorem approvePayout_spec_witness :
    ∃ st', AdminService.approvePayout
      { payoutRequests := [{ id := "p1", userId := "u", walletId := "w1",
                             accountId := "a1", amount := 50000,
                             status := .REJECTED }] } "p1" 5 = .ok st' ∧
      (st'.payoutRequests.find? (fun x => x.id == "p1")).map
          PayoutRequest.status = some .COMPLETED ∧
      (st'.payoutRequests.find? (fun x => x.id == "p1")).map
          PayoutRequest.processedAt = some (some 5) ∧
      st'.walletTransactions =
        ({ payoutRequests := [{ id := "p1", userId := "u", walletId := "w1",
                                accountId := "a1", amount := 50000,
                                status := .REJECTED }] } : St).walletTransactions ∧
      st'.wallets =
        ({ payoutRequests := [{ id := "p1", userId := "u", walletId := "w1",
                                accountId := "a1", amount := 50000,
                                status := .REJECTED }] } : St).wallets :=
  approvePayout_spec
    { payoutRequests := [{ id := "p1", userId := "u", walletId := "w1",
                           accountId := "a1", amount := 50000,
                           status := .REJECTED }] } "p1" 5
    { id := "p1", userId := "u", walletId := "w1", accountId := "a1",
      amount := 50000, status := .REJECTED }
    (by decide)

theorem find?_append_of_none {α : Type} (p : α → Bool) (l1 l2 : List α)
    (h : l1.find? p = none) : (l1 ++ l2).find? p = l2.find? p := by
  induction l1 with
  | nil => rfl
  | cons x xs ih =>
    rw [List.find?_cons] at h
    rw [List.cons_append, List.find?_cons]
    cases hx : p x
    · rw [hx] at h
      exact ih h
    · rw [hx] at h
      exact absurd h (by simp)

/-- C7: for an amount of at least 50000 not exceeding the wallet balance
and a payout account owned by the requester, createPayoutRequest creates a
PENDING request and debits the wallet by exactly that amount through one
negative PAYOUT_REQUEST entry; a subsequent rejectPayout on that request
flips it to REJECTED and credits exactly the same amount back through one
PAYOUT_REJECTED entry, restoring the balance to its pre-request value. -/
theorem payout_reject_symmetric (st : St) (userId : String)
    (dto : WalletsService.CreatePayoutRequestDto) (newId reason : String)
    (now : Nat) (w : Wallet) (acct : PayoutAccount)
    (hw : st.wallets.find? (fun x => x.userId == userId) = some w)
    (hwid : st.wallets.find? (fun x => x.id == w.id) = some w)
    (hacct : st.payoutAccounts.find? (fun x => x.id == dto.payoutAccountId) = some acct)
    (hown : acct.userId = userId)
    (hmin : 50000 ≤ dto.amount) (hle : dto.amount ≤ w.balance)
    (hfresh : st.payoutRequests.find? (fun x => x.id == newId) = none) :
    ∃ st1 req, WalletsService.createPayoutRequest st userId dto newId
        = .ok (st1, req) ∧
      req.status = .PENDING ∧ req.amount = dto.amount ∧ req.id = newId ∧
      (st1.wallets.find? (fun x => x.id == w.id)).map Wallet.balance
        = some (w.balance - dto.amount) ∧
      (∃ t, st1.walletTransactions = st.walletTransactions ++ [t] ∧
        t.type = .PAYOUT_REQUEST ∧ t.amount = -dto.amount ∧
        t.payoutRequestId = some newId) ∧
      ∃ st2 req2, AdminService.rejectPayout st1 newId reason now
          = .ok (st2, req2) ∧
        req2.status = .REJECTED ∧
        (st2.payoutRequests.find? (fun x => x.id == newId)).map
            PayoutRequest.status = some .REJECTED ∧
        (st2.wallets.find? (fun x => x.id == w.id)).map Wallet.balance
          = some w.balance ∧
        ∃ t2, st2.walletTransactions = st1.walletTransactions ++ [t2] ∧
          t2.type = .PAYOUT_REJECTED ∧ t2.amount = dto.amount := by
  have hnmin : ¬ (dto.amount < 50000) := not_lt.mpr hmin
  have hnbal : ¬ (w.balance < dto.amount) := not_lt.mpr hle
  have hneg1 : ¬ (w.balance + -dto.amount < 0) := by push_neg; linarith
  have hneg2 : ¬ (w.balance + -dto.amount + dto.amount < 0) := by
    push_neg; linarith
  have hown2 : ¬ (acct.userId ≠ userId) := by simp [hown]
  have hfindP : (st.payoutRequests ++
      [({ id := newId, userId := userId, walletId := w.id, accountId := acct.id,
          amount := dto.amount, status := .PENDING } : PayoutRequest)]).find?
        (fun x => x.id == newId)
      = some { id := newId, userId := userId, walletId := w.id,
               accountId := acct.id, amount := dto.amount, status := .PENDING } := by
    rw [find?_append_of_none _ _ _ hfresh]
    simp
  have hwalA := find?_listUpdate_self (fun x => x.id == w.id)
    (fun x => { x with balance := w.balance + -dto.amount })
    (fun x => rfl) st.wallets w hwid
  have hwalB2 := find?_listUpdate_self (fun x : Wallet => x.id == w.id)
    (fun x : Wallet => { x with balance := w.balance })
    (fun x => rfl) _ _ hwalA
  have hfindP2 := find?_listUpdate_self (fun x : PayoutRequest => x.id == newId)
    (fun x : PayoutRequest =>
      { x with status := PayoutStatus.REJECTED, processedAt := some now,
               adminNotes := some reason })
    (fun x => rfl) _ _ hfindP
  simp only [WalletsService.createPayoutRequest, hnmin, hw, hnbal, hacct, hown2,
    WalletsService.createTransaction, hwid, hneg1, if_false, if_neg,
    not_false_eq_true, ite_false, ite_true, if_true]
  refine ⟨_, _, rfl, rfl, rfl, rfl, ?_, ⟨_, rfl, rfl, rfl, rfl⟩, ?_⟩
  · simp [hwalA]
    ring
  · simp only [AdminService.rejectPayout, hfindP, WalletsService.createTransaction,
      hwalA, hneg2, if_false, if_neg, not_false_eq_true, ite_false, ite_true,
      if_true, notifyCreate]
    refine ⟨_, _, rfl, rfl, ?_, ?_, ⟨_, rfl, rfl, rfl⟩⟩
    · simp [hfindP2]
    · simp
      exact ⟨_, hwalB2, rfl⟩

/-- C7 witness: a payout request of 50000 against a balance of 50000 leaves
the wallet at 0, and rejecting it restores the balance to 50000. -/
theorem payout_reject_symmetric_witness :
    ∃ st1 req, WalletsService.createPayoutRequest
      { wallets := [{ id := "w1", userId := "u", balance := 50000 }],
        payoutAccounts := [{ id := "a1", userId := "u", bankName := "BCA",
                             accountNumber := "1234567890" }] }
      "u" { amount := 50000, payoutAccountId := "a1" } "p1" = .ok (st1, req) ∧
      (st1.wallets.find? (fun x => x.id == "w1")).map Wallet.balance
        = some 0 ∧
      ∃ st2 req2, AdminService.rejectPayout st1 "p1"
          "nomor rekening tidak valid" 7 = .ok (st2, req2) ∧
        (st2.wallets.find? (fun x => x.id == "w1")).map Wallet.balance
          = some 50000 := by
  have h := payout_reject_symmetric
    { wallets := [{ id := "w1", userId := "u", balance := 50000 }],
      payoutAccounts := [{ id := "a1", userId := "u", bankName := "BCA",
                           accountNumber := "1234567890" }] }
    "u" { amount := 50000, payoutAccountId := "a1" } "p1"
    "nomor rekening tidak valid" 7
    { id := "w1", userId := "u", balance := 50000 }
    { id := "a1", userId := "u", bankName := "BCA",
      accountNumber := "1234567890" }
    (by decide) (by decide) (by decide) rfl (by norm_num) (by norm_num)
    (by decide)
  obtain ⟨st1, req, hA, hB, hC, hD, hE, hF, st2, req2, hG, hH, hI, hJ, hK⟩ := h
  refine ⟨st1, req, hA, ?_, st2, req2, hG, ?_⟩
  · rw [hE]
    norm_num
  · exact hJ

/-- C8: resolveDispute succeeds only on an OPEN dispute — on any dispute
found in another status it fails with the already-resolved error and
returns no state (no ledger movement) — and on success with resolution
REFUND_TO_BUYER it marks the dispute RESOLVED, sets the order status
RESOLVED, credits the buyer wallet with exactly one DISPUTE_REFUND row for
the full order price, and a second resolveDispute on the resulting state
fails with the already-resolved error. -/
theorem resolveDispute_spec (st : St) (adminId disputeId : String)
    (dto : AdminService.ResolveDisputeDto) (now : Nat)
    (d : Dispute) (o : Order) (sv : Service) (w : Wallet)
    (hd : st.disputes.find? (fun x => x.id == disputeId) = some d)
    (hopen : d.status = .OPEN)
    (ho : st.orders.find? (fun x => x.id == d.orderId) = some o)
    (hsv : st.services.find? (fun x => x.id == o.serviceId) = some sv)
    (hres : dto.resolution = .REFUND_TO_BUYER)
    (hw : st.wallets.find? (fun x => x.userId == o.buyerId) = some w)
    (hwid : st.wallets.find? (fun x => x.id == w.id) = some w)
    (hbal : 0 ≤ w.balance) (hprice : 0 ≤ o.price) :
    (∀ (st0 : St) (d0 : Dispute),
      st0.disputes.find? (fun x => x.id == disputeId) = some d0 →
      d0.status ≠ .OPEN →
      AdminService.resolveDispute st0 adminId disputeId dto now
        = .error (.badRequest "Sengketa ini sudah diselesaikan")) ∧
    ∃ st' d', AdminService.resolveDispute st adminId disputeId dto now
        = .ok (st', d') ∧
      d'.status = .RESOLVED ∧ d'.resolution = some .REFUND_TO_BUYER ∧
      (st'.disputes.find? (fun x => x.id == disputeId)).map Dispute.status
        = some .RESOLVED ∧
      (st'.orders.find? (fun x => x.id == d.orderId)).map Order.status
        = some .RESOLVED ∧
      (st'.wallets.find? (fun x => x.id == w.id)).map Wallet.balance
        = some (w.balance + o.price) ∧
      (∃ t, st'.walletTransactions = st.walletTransactions ++ [t] ∧
        t.type = .DISPUTE_REFUND ∧ t.amount = o.price ∧
        t.orderId = some d.orderId) ∧
      AdminService.resolveDispute st' adminId disputeId dto now
        = .error (.badRequest "Sengketa ini sudah diselesaikan") := by
  have hgen : ∀ (st0 : St) (d0 : Dispute),
      st0.disputes.find? (fun x => x.id == disputeId) = some d0 →
      d0.status ≠ .OPEN →
      AdminService.resolveDispute st0 adminId disputeId dto now
        = .error (.badRequest "Sengketa ini sudah diselesaikan") := by
    intro st0 d0 h0 hne
    simp only [AdminService.resolveDispute, h0]
    rw [if_pos hne]
  have hno : ¬ (d.status ≠ DisputeStatus.OPEN) := by simp [hopen]
  have hneg : ¬ (w.balance + o.price < 0) := by push_neg; linarith
  have hdisp := find?_listUpdate_self (fun x : Dispute => x.id == disputeId)
    (fun x : Dispute =>
      { x with status := DisputeStatus.RESOLVED,
               resolution := some DisputeResolution.REFUND_TO_BUYER,
               adminNotes := dto.adminNotes, resolvedById := some adminId,
               resolvedAt := some now })
    (fun x => rfl) st.disputes d hd
  have hord := find?_listUpdate_self (fun x : Order => x.id == d.orderId)
    (fun x : Order => { x with status := OrderStatus.RESOLVED })
    (fun x => rfl) st.orders o ho
  have hwal := find?_listUpdate_self (fun x : Wallet => x.id == w.id)
    (fun x : Wallet => { x with balance := w.balance + o.price })
    (fun x => rfl) st.wallets w hwid
  refine ⟨hgen, ?_⟩
  simp only [AdminService.resolveDispute, hd, hno, if_neg, not_false_eq_true,
    ite_false, ho, hsv, hres, hw, WalletsService.createTransaction, hwid, hneg,
    if_false, notifyCreate]
  refine ⟨_, _, rfl, rfl, rfl, ?_, ?_, ?_, ⟨_, rfl, rfl, rfl, rfl⟩, ?_⟩
  · simp [hdisp]
  · simp [hord]
  · simp [hwal]
  · simp [hdisp]

/-- C8 witness: a dispute over an order of price 200000 resolved
REFUND_TO_BUYER credits the buyer wallet with exactly 200000, and resolving
it a second time fails with the already-resolved error. -/
theorem resolveDispute_spec_witness :
    ∃ st' d', AdminService.resolveDispute
      { disputes := [{ id := "d1", orderId := "o1", openedById := "b",
                       status := .OPEN }],
        orders := [{ id := "o1", serviceId := "s1", buyerId := "b",
                     title := "Jasa", price := 200000, deliveryTime := 3,
                     maxRevisions := 2, revisionCount := 0, revisionNotes := [],
                     requirements := "tugas", status := .DISPUTED,
                     isPaid := true }],
        services := [{ id := "s1", sellerId := "s", title := "Jasa",
                       price := 200000, deliveryTime := 3, revisions := 2,
                       isActive := true, status := "ACTIVE",
                       totalOrders := 0 }],
        wallets := [{ id := "w1", userId := "b", balance := 0 }] }
      "admin" "d1" { resolution := .REFUND_TO_BUYER } 9 = .ok (st', d') ∧
      d'.status = .RESOLVED ∧
      (st'.wallets.find? (fun x => x.id == "w1")).map Wallet.balance
        = some 200000 ∧
      AdminService.resolveDispute st' "admin" "d1"
        { resolution := .REFUND_TO_BUYER } 9
        = .error (.badRequest "Sengketa ini sudah diselesaikan") := by
  have h := resolveDispute_spec
    { disputes := [{ id := "d1", orderId := "o1", openedById := "b",
                     status := .OPEN }],
      orders := [{ id := "o1", serviceId := "s1", buyerId := "b",
                   title := "Jasa", price := 200000, deliveryTime := 3,
                   maxRevisions := 2, revisionCount := 0, revisionNotes := [],
                   requirements := "tugas", status := .DISPUTED,
                   isPaid := true }],
      services := [{ id := "s1", sellerId := "s", title := "Jasa",
                     price := 200000, deliveryTime := 3, revisions := 2,
                     isActive := true, status := "ACTIVE", totalOrders := 0 }],
      wallets := [{ id := "w1", userId := "b", balance := 0 }] }
    "admin" "d1" { resolution := .REFUND_TO_BUYER } 9
    { id := "d1", orderId := "o1", openedById := "b", status := .OPEN }
    { id := "o1", serviceId := "s1", buyerId := "b", title := "Jasa",
      price := 200000, deliveryTime := 3, maxRevisions := 2,
      revisionCount := 0, revisionNotes := [], requirements := "tugas",
      status := .DISPUTED, isPaid := true }
    { id := "s1", sellerId := "s", title := "Jasa", price := 200000,
      deliveryTime := 3, revisions := 2, isActive := true, status := "ACTIVE",
      totalOrders := 0 }
    { id := "w1", userId := "b", balance := 0 }
    (by decide) rfl (by decide) (by decide) rfl (by decide) (by decide)
    (by norm_num) (by norm_num)
  obtain ⟨st', d', hrun, hst, hres2, hdisp2, hord2, hbal2, hts, hsecond⟩ := h.2
  have hb2 : (st'.wallets.find? (fun x => x.id == "w1")).map Wallet.balance
      = some ((0 : Money) + 200000) := hbal2
  refine ⟨st', d', hrun, hst, ?_, hsecond⟩
  rw [hb2]
  norm_num

/-- C9 counterexample: completeOrder — a wallet access performed on behalf
of a ledger operation (the escrow release) — fails with the Prisma
record-not-found error when the seller has no Wallet row, although order,
service and seller all exist; the claim says such accesses do not fail. -/
theorem completeOrder_missing_wallet_counterexample :
    OrdersService.completeOrder
      { orders := [{ id := "o1", serviceId := "s1", buyerId := "b",
                     title := "Jasa", price := 100000, deliveryTime := 3,
                     maxRevisions := 2, revisionCount := 0, revisionNotes := [],
                     requirements := "tugas", status := .DELIVERED,
                     isPaid := true }],
        services := [{ id := "s1", sellerId := "s", title := "Jasa",
                       price := 100000, deliveryTime := 3, revisions := 2,
                       isActive := true, status := "ACTIVE",
                       totalOrders := 0 }],
        users := [{ id := "s", totalOrdersCompleted := 0 }],
        wallets := [] }
      "o1" "s" 0 = .error (.prismaNotFound "Wallet") := by
  simp [OrdersService.completeOrder]

/-- C9 (amended): the first access to a missing wallet through
getWalletByUserId creates it with balance 0 and returns it (and an existing
wallet is returned unchanged); but the wallet lookups the reachable ledger
operations perform use findUniqueOrThrow, so both the escrow release of
completeOrder and the dispute refund of resolveDispute fail with the Prisma
record-not-found error when the target wallet is absent; and the
escrow-refund wallet read of cancelOrder is unreachable, since its status
guard rejects every call first. -/
theorem walletAccess_spec (st : St) (userId newId orderId sellerId : String)
    (now : Nat) (o : Order) (sv : Service) (u : User)
    (ho : st.orders.find? (fun x => x.id == orderId) = some o)
    (hsv : st.services.find? (fun x => x.id == o.serviceId) = some sv)
    (hu : st.users.find? (fun x => x.id == sellerId) = some u) :
    (st.wallets.find? (fun x => x.userId == userId) = none →
      WalletsService.getWalletByUserId st userId newId
        = ({ st with wallets := st.wallets
              ++ [{ id := newId, userId := userId, balance := 0 }] },
           { id := newId, userId := userId, balance := 0 })) ∧
    (∀ w, st.wallets.find? (fun x => x.userId == userId) = some w →
      WalletsService.getWalletByUserId st userId newId = (st, w)) ∧
    (st.wallets.find? (fun x => x.userId == sellerId) = none →
      OrdersService.completeOrder st orderId sellerId now
        = .error (.prismaNotFound "Wallet")) ∧
    (∀ (adminId disputeId : String) (dtoD : AdminService.ResolveDisputeDto)
        (d0 : Dispute),
      st.disputes.find? (fun x => x.id == disputeId) = some d0 →
      d0.status = .OPEN → d0.orderId = orderId →
      dtoD.resolution = .REFUND_TO_BUYER →
      st.wallets.find? (fun x => x.userId == o.buyerId) = none →
      AdminService.resolveDispute st adminId disputeId dtoD now
        = .error (.prismaNotFound "Wallet")) ∧
    (∀ (userId2 : String) (role : OrdersService.Role)
        (dtoC : OrdersService.CancelOrderDto),
      (match role with
        | .buyer => o.buyerId = userId2
        | .seller => ∃ s, st.services.find? (fun x => x.id == o.serviceId)
            = some s ∧ s.sellerId = userId2) →
      OrdersService.cancelOrder st orderId userId2 role dtoC now
        = .error (.badRequest
            "Order dengan status ini tidak bisa dibatalkan. Silakan buka dispute jika ada masalah.")) := by
  refine ⟨?_, ?_, ?_, ?_, ?_⟩
  · intro habs
    simp [WalletsService.getWalletByUserId, WalletsService.createWallet, habs]
  · intro w hw
    simp [WalletsService.getWalletByUserId, hw]
  · intro habs
    simp only [OrdersService.completeOrder, ho, hsv, hu, habs]
  · intro adminId disputeId dtoD d0 hd hd0 hdord hresD habs
    have hno : ¬ (d0.status ≠ DisputeStatus.OPEN) := by simp [hd0]
    simp only [AdminService.resolveDispute, hd, hno, if_neg,
      not_false_eq_true, ite_false, hdord, ho, hsv, hresD, habs]
  · intro userId2 role dtoC hrole
    cases role with
    | buyer =>
      simp only at hrole
      simp only [OrdersService.cancelOrder, ho, hrole, beq_self_eq_true,
        if_true]
      cases o.status <;>
        simp [OrdersService.cancellableStatuses, OrderStatus.dbName]
    | seller =>
      obtain ⟨sx, hs, hsid⟩ := hrole
      simp only [OrdersService.cancelOrder, ho, hs, hsid, beq_self_eq_true,
        if_true]
      cases o.status <;>
        simp [OrdersService.cancellableStatuses, OrderStatus.dbName]

/-- C9 witness: in a state with no wallet rows, getWalletByUserId creates
and returns a balance-0 wallet for the buyer, while completeOrder for the
seller and the REFUND_TO_BUYER resolution of the open dispute over the
same order both fail on the absent wallet, and cancelOrder by the buyer is
rejected by its status guard before any wallet read. -/
theorem walletAccess_spec_witness :
    (WalletsService.getWalletByUserId
        { orders := [{ id := "o1", serviceId := "s1", buyerId := "b",
                       title := "Jasa", price := 100000, deliveryTime := 3,
                       maxRevisions := 2, revisionCount := 0,
                       revisionNotes := [], requirements := "tugas",
                       status := .DELIVERED, isPaid := true }],
          services := [{ id := "s1", sellerId := "s", title := "Jasa",
                         price := 100000, deliveryTime := 3, revisions := 2,
                         isActive := true, status := "ACTIVE",
                         totalOrders := 0 }],
          users := [{ id := "s", totalOrdersCompleted := 0 }],
          disputes := [{ id := "d1", orderId := "o1", openedById := "b",
                         status := .OPEN }],
          wallets := [] } "b" "w9"
      = ({ orders := [{ id := "o1", serviceId := "s1", buyerId := "b",
                        title := "Jasa", price := 100000, deliveryTime := 3,
                        maxRevisions := 2, revisionCount := 0,
                        revisionNotes := [], requirements := "tugas",
                        status := .DELIVERED, isPaid := true }],
           services := [{ id := "s1", sellerId := "s", title := "Jasa",
                          price := 100000, deliveryTime := 3, revisions := 2,
                          isActive := true, status := "ACTIVE",
                          totalOrders := 0 }],
           users := [{ id := "s", totalOrdersCompleted := 0 }],
           disputes := [{ id := "d1", orderId := "o1", openedById := "b",
                          status := .OPEN }],
           wallets := [{ id := "w9", userId := "b", balance := 0 }] },
         { id := "w9", userId := "b", balance := 0 })) ∧
    (OrdersService.completeOrder
        { orders := [{ id := "o1", serviceId := "s1", buyerId := "b",
                       title := "Jasa", price := 100000, deliveryTime := 3,
                       maxRevisions := 2, revisionCount := 0,
                       revisionNotes := [], requirements := "tugas",
                       status := .DELIVERED, isPaid := true }],
          services := [{ id := "s1", sellerId := "s", title := "Jasa",
                         price := 100000, deliveryTime := 3, revisions := 2,
                         isActive := true, status := "ACTIVE",
                         totalOrders := 0 }],
          users := [{ id := "s", totalOrdersCompleted := 0 }],
          disputes := [{ id := "d1", orderId := "o1", openedById := "b",
                         status := .OPEN }],
          wallets := [] } "o1" "s" 0
      = .error (.prismaNotFound "Wallet")) ∧
    (AdminService.resolveDispute
        { orders := [{ id := "o1", serviceId := "s1", buyerId := "b",
                       title := "Jasa", price := 100000, deliveryTime := 3,
                       maxRevisions := 2, revisionCount := 0,
                       revisionNotes := [], requirements := "tugas",
                       status := .DELIVERED, isPaid := true }],
          services := [{ id := "s1", sellerId := "s", title := "Jasa",
                         price := 100000, deliveryTime := 3, revisions := 2,
                         isActive := true, status := "ACTIVE",
                         totalOrders := 0 }],
          users := [{ id := "s", totalOrdersCompleted := 0 }],
          disputes := [{ id := "d1", orderId := "o1", openedById := "b",
                         status := .OPEN }],
          wallets := [] } "admin" "d1" { resolution := .REFUND_TO_BUYER } 0
      = .error (.prismaNotFound "Wallet")) ∧
    (OrdersService.cancelOrder
        { orders := [{ id := "o1", serviceId := "s1", buyerId := "b",
                       title := "Jasa", price := 100000, deliveryTime := 3,
                       maxRevisions := 2, revisionCount := 0,
                       revisionNotes := [], requirements := "tugas",
                       status := .DELIVERED, isPaid := true }],
          services := [{ id := "s1", sellerId := "s", title := "Jasa",
                         price := 100000, deliveryTime := 3, revisions := 2,
                         isActive := true, status := "ACTIVE",
                         totalOrders := 0 }],
          users := [{ id := "s", totalOrdersCompleted := 0 }],
          disputes := [{ id := "d1", orderId := "o1", openedById := "b",
                         status := .OPEN }],
          wallets := [] } "o1" "b" .buyer
        { reason := "Saya berubah pikiran tentang pesanan ini" } 0
      = .error (.badRequest
          "Order dengan status ini tidak bisa dibatalkan. Silakan buka dispute jika ada masalah.")) := by
  have h := walletAccess_spec
    { orders := [{ id := "o1", serviceId := "s1", buyerId := "b",
                   title := "Jasa", price := 100000, deliveryTime := 3,
                   maxRevisions := 2, revisionCount := 0, revisionNotes := [],
                   requirements := "tugas", status := .DELIVERED,
                   isPaid := true }],
      services := [{ id := "s1", sellerId := "s", title := "Jasa",
                     price := 100000, deliveryTime := 3, revisions := 2,
                     isActive := true, status := "ACTIVE", totalOrders := 0 }],
      users := [{ id := "s", totalOrdersCompleted := 0 }],
      disputes := [{ id := "d1", orderId := "o1", openedById := "b",
                     status := .OPEN }],
      wallets := [] } "b" "w9" "o1" "s" 0
    { id := "o1", serviceId := "s1", buyerId := "b", title := "Jasa",
      price := 100000, deliveryTime := 3, maxRevisions := 2,
      revisionCount := 0, revisionNotes := [], requirements := "tugas",
      status := .DELIVERED, isPaid := true }
    { id := "s1", sellerId := "s", title := "Jasa", price := 100000,
      deliveryTime := 3, revisions := 2, isActive := true, status := "ACTIVE",
      totalOrders := 0 }
    { id := "s", totalOrdersCompleted := 0 }
    (by decide) (by decide) (by decide)
  refine ⟨h.1 rfl, h.2.2.1 rfl, ?_, ?_⟩
  · exact h.2.2.2.1 "admin" "d1" { resolution := .REFUND_TO_BUYER }
      { id := "d1", orderId := "o1", openedById := "b", status := .OPEN }
      (by decide) rfl rfl rfl rfl
  · exact h.2.2.2.2 "b" .buyer
      { reason := "Saya berubah pikiran tentang pesanan ini" } rfl

theorem find?_listUpdate_of_preserve {α : Type} (pr q : α → Bool) (f : α → α)
    (h : ∀ x, q (f x) = q x) (l : List α) (x : α) (hfind : l.find? q = some x) :
    (listUpdate pr f l).find? q = some (if pr x then f x else x) := by
  rw [listUpdate, find?_map_comm _ _ ?_ l, hfind]
  · rfl
  · intro y
    by_cases hy : pr y
    · simp [hy, h]
    · simp [hy]

/-- C5: delivering the same settlement webhook twice yields exactly one
PAID_ESCROW transition and one seller notification: the first delivery
settles the payment, flips the order to PAID_ESCROW/isPaid and appends one
notification, and the second delivery is the identity. In general, when the
Payment is already SETTLEMENT and transaction_status is "settlement",
handlePaymentWebhook returns the state unchanged with no event, and the
settled-event handler is a no-op on an order whose isPaid flag is set. -/
theorem settlement_idempotent (st : St)
    (payload : PaymentsService.WebhookPayload) (now1 now2 : Nat)
    (p : Payment) (o : Order) (sv : Service)
    (hts : payload.transaction_status = "settlement")
    (h1 : (payload.order_id == "") = false)
    (h3 : (payload.gross_amount == "") = false)
    (h4 : (payload.signature_key == "") = false)
    (hp : st.payments.find?
        (fun x => x.orderId == PaymentsService.originalOrderIdOf payload.order_id)
        = some p)
    (hpstat : p.status ≠ .SETTLEMENT)
    (ho : st.orders.find?
        (fun x => x.id == PaymentsService.originalOrderIdOf payload.order_id)
        = some o)
    (hnotpaid : o.isPaid = false)
    (hsv : st.services.find? (fun x => x.id == o.serviceId) = some sv) :
    ((PaymentsService.deliverWebhook st payload now1).orders.find?
        (fun x => x.id == PaymentsService.originalOrderIdOf payload.order_id)).map
          Order.status = some .PAID_ESCROW ∧
    ((PaymentsService.deliverWebhook st payload now1).orders.find?
        (fun x => x.id == PaymentsService.originalOrderIdOf payload.order_id)).map
          Order.isPaid = some true ∧
    (PaymentsService.deliverWebhook st payload now1).notifications.length
      = st.notifications.length + 1 ∧
    PaymentsService.deliverWebhook (PaymentsService.deliverWebhook st payload now1)
      payload now2 = PaymentsService.deliverWebhook st payload now1 ∧
    (∀ (s : St) (q0 : Payment),
      s.payments.find?
        (fun x => x.orderId == PaymentsService.originalOrderIdOf payload.order_id)
        = some q0 → q0.status = .SETTLEMENT →
      PaymentsService.handlePaymentWebhook s payload
        = .ok (s, PaymentsService.originalOrderIdOf payload.order_id, false)) ∧
    (∀ (s : St) (o0 : Order),
      s.orders.find?
        (fun x => x.id == PaymentsService.originalOrderIdOf payload.order_id)
        = some o0 → o0.isPaid = true →
      OrdersService.handlePaymentSuccess s
        (PaymentsService.originalOrderIdOf payload.order_id)
        payload.transaction_id payload.payment_type now2 = s) := by
  have hts2 : (payload.transaction_status == "") = false := by simp [hts]
  have hcap : (payload.transaction_status == "capture") = false := by simp [hts]
  have hset : (payload.transaction_status == "settlement") = true := by simp [hts]
  have hporder := List.find?_some hp
  simp only [] at hporder
  have hpstatF : (p.status == PaymentStatus.SETTLEMENT) = false := by
    simp [hpstat]
  have he : ∀ (s : St) (q0 : Payment),
      s.payments.find?
        (fun x => x.orderId == PaymentsService.originalOrderIdOf payload.order_id)
        = some q0 → q0.status = .SETTLEMENT →
      PaymentsService.handlePaymentWebhook s payload
        = .ok (s, PaymentsService.originalOrderIdOf payload.order_id, false) := by
    intro s q0 hq hqs
    have hqsT : (q0.status == PaymentStatus.SETTLEMENT) = true := by simp [hqs]
    simp only [PaymentsService.handlePaymentWebhook, h1, hts2, h3, h4, hq,
      hqsT, hset, Bool.false_or, Bool.or_false, Bool.and_self, Bool.true_and,
      Bool.and_true, Bool.false_eq_true, if_false, ite_false, Bool.or_self,
      if_true, ite_true]
  have hf : ∀ (s : St) (o0 : Order),
      s.orders.find?
        (fun x => x.id == PaymentsService.originalOrderIdOf payload.order_id)
        = some o0 → o0.isPaid = true →
      OrdersService.handlePaymentSuccess s
        (PaymentsService.originalOrderIdOf payload.order_id)
        payload.transaction_id payload.payment_type now2 = s := by
    intro s o0 h0 hpaid
    simp only [OrdersService.handlePaymentSuccess, h0, hpaid, ite_true, if_true]
  have hfindP1 := find?_listUpdate_of_preserve
    (fun x : Payment => x.id == p.id)
    (fun x : Payment =>
      x.orderId == PaymentsService.originalOrderIdOf payload.order_id)
    (fun x : Payment =>
      { x with status := PaymentStatus.SETTLEMENT,
               transactionId := some payload.transaction_id,
               paymentType := some payload.payment_type })
    (fun x => rfl) st.payments p hp
  rw [if_pos (by simp)] at hfindP1
  have hrun : PaymentsService.deliverWebhook st payload now1
      = notifyCreate
          { st with
              orders := listUpdate
                (fun x =>
                  x.id == PaymentsService.originalOrderIdOf payload.order_id)
                (fun x => { x with status := OrderStatus.PAID_ESCROW,
                                   isPaid := true, paidAt := some now1 })
                st.orders
              payments := listUpdate
                (fun x =>
                  x.orderId == PaymentsService.originalOrderIdOf payload.order_id)
                (fun x =>
                  { x with status := PaymentStatus.SETTLEMENT,
                           transactionId := some payload.transaction_id,
                           paymentType := some payload.payment_type })
                (listUpdate (fun x => x.id == p.id)
                  (fun x =>
                    { x with status := PaymentStatus.SETTLEMENT,
                             transactionId := some payload.transaction_id,
                             paymentType := some payload.payment_type })
                  st.payments) }
          sv.sellerId ("Pesanan baru #" ++ o.id.take 8 ++ " telah dibayar!")
          ("/seller/orders/" ++ o.id) "ORDER" := by
    simp only [PaymentsService.deliverWebhook,
      PaymentsService.handlePaymentWebhook, h1, hts2, h3, h4, hp, hpstatF,
      hcap, hset, Bool.false_or, Bool.or_false, Bool.false_and,
      Bool.false_eq_true, if_false, ite_false, ite_true, Bool.or_self,
      OrdersService.handlePaymentSuccess, ho, hnotpaid, hfindP1, hsv,
      beq_self_eq_true]
  refine ⟨?_, ?_, ?_, ?_, he, hf⟩
  · rw [hrun]
    have := find?_listUpdate_self
      (fun x : Order =>
        x.id == PaymentsService.originalOrderIdOf payload.order_id)
      (fun x : Order => { x with status := OrderStatus.PAID_ESCROW,
                                 isPaid := true, paidAt := some now1 })
      (fun x => rfl) st.orders o ho
    simp [notifyCreate, this]
  · rw [hrun]
    have := find?_listUpdate_self
      (fun x : Order =>
        x.id == PaymentsService.originalOrderIdOf payload.order_id)
      (fun x : Order => { x with status := OrderStatus.PAID_ESCROW,
                                 isPaid := true, paidAt := some now1 })
      (fun x => rfl) st.orders o ho
    simp [notifyCreate, this]
  · rw [hrun]
    simp [notifyCreate]
  · rw [hrun]
    have hfindP2 := find?_listUpdate_self
      (fun x : Payment =>
        x.orderId == PaymentsService.originalOrderIdOf payload.order_id)
      (fun x : Payment =>
        { x with status := PaymentStatus.SETTLEMENT,
                 transactionId := some payload.transaction_id,
                 paymentType := some payload.payment_type })
      (fun x => rfl) _ _ hfindP1
    have hd : ∀ (s : St) (q0 : Payment),
        s.payments.find?
          (fun x => x.orderId == PaymentsService.originalOrderIdOf payload.order_id)
          = some q0 → q0.status = .SETTLEMENT →
        PaymentsService.deliverWebhook s payload now2 = s := by
      intro s q0 hq hqs
      simp only [PaymentsService.deliverWebhook, he s q0 hq hqs, ite_false,
        Bool.false_eq_true, if_false]
    exact hd _ _ (by simpa [notifyCreate] using hfindP2) rfl

/-- C5 witness: a concrete settlement webhook for order o1 (gateway id
o1-T123) delivered twice: the first delivery sets PAID_ESCROW and appends
exactly one notification, the second changes nothing. -/
theorem settlement_idempotent_witness :
    ((PaymentsService.deliverWebhook
        { payments := [{ id := "pay1", orderId := "o1", status := .PENDING }],
          orders := [{ id := "o1", serviceId := "s1", buyerId := "b",
                       title := "Jasa", price := 100000, deliveryTime := 3,
                       maxRevisions := 2, revisionCount := 0,
                       revisionNotes := [], requirements := "tugas",
                       status := .WAITING_PAYMENT, isPaid := false }],
          services := [{ id := "s1", sellerId := "s", title := "Jasa",
                         price := 100000, deliveryTime := 3, revisions := 2,
                         isActive := true, status := "ACTIVE",
                         totalOrders := 0 }] }
        { order_id := "o1-T123", transaction_status := "settlement",
          transaction_id := "tx1", status_code := "200",
          gross_amount := "100000.00", signature_key := "sig",
          payment_type := "qris" } 1).orders.find?
        (fun x => x.id == PaymentsService.originalOrderIdOf "o1-T123")).map
          Order.status = some .PAID_ESCROW ∧
    (PaymentsService.deliverWebhook
        { payments := [{ id := "pay1", orderId := "o1", status := .PENDING }],
          orders := [{ id := "o1", serviceId := "s1", buyerId := "b",
                       title := "Jasa", price := 100000, deliveryTime := 3,
                       maxRevisions := 2, revisionCount := 0,
                       revisionNotes := [], requirements := "tugas",
                       status := .WAITING_PAYMENT, isPaid := false }],
          services := [{ id := "s1", sellerId := "s", title := "Jasa",
                         price := 100000, deliveryTime := 3, revisions := 2,
                         isActive := true, status := "ACTIVE",
                         totalOrders := 0 }] }
        { order_id := "o1-T123", transaction_status := "settlement",
          transaction_id := "tx1", status_code := "200",
          gross_amount := "100000.00", signature_key := "sig",
          payment_type := "qris" } 1).notifications.length = 0 + 1 ∧
    PaymentsService.deliverWebhook
      (PaymentsService.deliverWebhook
        { payments := [{ id := "pay1", orderId := "o1", status := .PENDING }],
          orders := [{ id := "o1", serviceId := "s1", buyerId := "b",
                       title := "Jasa", price := 100000, deliveryTime := 3,
                       maxRevisions := 2, revisionCount := 0,
                       revisionNotes := [], requirements := "tugas",
                       status := .WAITING_PAYMENT, isPaid := false }],
          services := [{ id := "s1", sellerId := "s", title := "Jasa",
                         price := 100000, deliveryTime := 3, revisions := 2,
                         isActive := true, status := "ACTIVE",
                         totalOrders := 0 }] }
        { order_id := "o1-T123", transaction_status := "settlement",
          transaction_id := "tx1", status_code := "200",
          gross_amount := "100000.00", signature_key := "sig",
          payment_type := "qris" } 1)
      { order_id := "o1-T123", transaction_status := "settlement",
        transaction_id := "tx1", status_code := "200",
        gross_amount := "100000.00", signature_key := "sig",
        payment_type := "qris" } 2
      = PaymentsService.deliverWebhook
        { payments := [{ id := "pay1", orderId := "o1", status := .PENDING }],
          orders := [{ id := "o1", serviceId := "s1", buyerId := "b",
                       title := "Jasa", price := 100000, deliveryTime := 3,
                       maxRevisions := 2, revisionCount := 0,
                       revisionNotes := [], requirements := "tugas",
                       status := .WAITING_PAYMENT, isPaid := false }],
          services := [{ id := "s1", sellerId := "s", title := "Jasa",
                         price := 100000, deliveryTime := 3, revisions := 2,
                         isActive := true, status := "ACTIVE",
                         totalOrders := 0 }] }
        { order_id := "o1-T123", transaction_status := "settlement",
          transaction_id := "tx1", status_code := "200",
          gross_amount := "100000.00", signature_key := "sig",
          payment_type := "qris" } 1 := by
  have h := settlement_idempotent
    { payments := [{ id := "pay1", orderId := "o1", status := .PENDING }],
      orders := [{ id := "o1", serviceId := "s1", buyerId := "b",
                   title := "Jasa", price := 100000, deliveryTime := 3,
                   maxRevisions := 2, revisionCount := 0, revisionNotes := [],
                   requirements := "tugas", status := .WAITING_PAYMENT,
                   isPaid := false }],
      services := [{ id := "s1", sellerId := "s", title := "Jasa",
                     price := 100000, deliveryTime := 3, revisions := 2,
                     isActive := true, status := "ACTIVE", totalOrders := 0 }] }
    { order_id := "o1-T123", transaction_status := "settlement",
      transaction_id := "tx1", status_code := "200",
      gross_amount := "100000.00", signature_key := "sig",
      payment_type := "qris" } 1 2
    { id := "pay1", orderId := "o1", status := .PENDING }
    { id := "o1", serviceId := "s1", buyerId := "b", title := "Jasa",
      price := 100000, deliveryTime := 3, maxRevisions := 2,
      revisionCount := 0, revisionNotes := [], requirements := "tugas",
      status := .WAITING_PAYMENT, isPaid := false }
    { id := "s1", sellerId := "s", title := "Jasa", price := 100000,
      deliveryTime := 3, revisions := 2, isActive := true, status := "ACTIVE",
      totalOrders := 0 }
    rfl (by decide) (by decide) (by decide) (by decide) (by decide)
    (by decide) rfl (by decide)
  exact ⟨h.1, h.2.2.1, h.2.2.2.1⟩
